import Mathlib

/-!
Shallow embedding of the UDS server core of `canbus-dev-utils`.

The embedded code is:
  * `src/uds/uds_common.py`  — the `ServiceID` enumeration;
  * `src/uds/uds_server.py`  — the current `UDSServer` (dispatch `run`,
    `get_sid`, `get_did`, `_handle_read_data_by_id`,
    `_handle_write_data_by_id`, `_send_negative_response`);
  * `src/uds_server/__init__.py` — the older `UDSServer` snapshot.

Byte frames are `List Nat` (every element of a real Python `bytes` object
is in `0..255`; where that bound matters it appears as a hypothesis).
The data-identifier store (`self.data`, a Python `dict`) is an association
list, with assignment modelled by Python `dict` semantics: update in place
when the key is present, append otherwise.

A Python expression that can raise an uncaught exception (`raw_request[0]`
on an empty frame, `raw_request[2]` on a short frame, `to_bytes` overflow)
is modelled in `Option`: `none` means the dispatch step raised.
-/

set_option maxRecDepth 4000

abbrev Byte := Nat
abbrev Frame := List Nat
abbrev Store := List (Nat × List Nat)

/-- The values of the `ServiceID` enumeration in `src/uds/uds_common.py`,
in source order. -/
def serviceIDValues : List Nat :=
  [0x10, 0x11, 0x22, 0x2A, 0x2C, 0x2E, 0x2F, 0x31, 0x34, 0x36, 0x35, 0x37,
   0x27, 0x28]

/-- `ServiceID(b)` succeeds exactly when `b` is a member value of the
enumeration (otherwise Python raises `ValueError`). -/
def isServiceID (b : Nat) : Bool := serviceIDValues.contains b

/-- Lookup in the data-identifier store (first entry whose key matches,
as in a Python `dict`, whose keys are unique). -/
def storeLookup : Store → Nat → Option (List Nat)
  | [], _ => none
  | e :: rest, k => if e.1 = k then some e.2 else storeLookup rest k

/-- Python `did in self.data`. -/
def storeContains (s : Store) (k : Nat) : Bool := (storeLookup s k).isSome

/-- Python `self.data[did]`; only used by the handlers under a
`did in self.data` guard, so the default is never reached on those paths. -/
def storeGet (s : Store) (k : Nat) : List Nat := (storeLookup s k).getD []

/-- Entry-replacement function used to model overwriting an existing key. -/
def replEntry (k : Nat) (v : List Nat) (e : Nat × List Nat) : Nat × List Nat :=
  if e.1 = k then (k, v) else e

/-- Python `self.data[did] = value`: overwrite in place when the key is
present, append a new entry otherwise. -/
def dictSet (s : Store) (k : Nat) (v : List Nat) : Store :=
  if storeContains s k then
    s.map (replEntry k v)
  else
    s ++ [(k, v)]

/-- Python `n.to_bytes(length=1, byteorder='big')`: raises `OverflowError`
for `n ≥ 256`. -/
def toBytes1 (n : Nat) : Option (List Nat) :=
  if n < 256 then some [n] else none

/-- Python `n.to_bytes(length=2, byteorder='big')`: big-endian two bytes,
raises `OverflowError` for `n ≥ 65536`. -/
def toBytes2 (n : Nat) : Option (List Nat) :=
  if n < 65536 then some [n / 256, n % 256] else none

/-- The `DUMMY_DATA` class attribute of `src/uds/uds_server.py`
(`0xF190` holds the VIN `5YJSA1DG9DFP14705` as UTF-8 bytes). -/
def DUMMY_DATA : Store :=
  [(0x0001, [0x01]),
   (0x0007, [0x07, 0x07, 0x07, 0x07, 0x07, 0x07, 0x07]),
   (0x0030, List.replicate 200 0x30),
   (0xF190, [0x35, 0x59, 0x4A, 0x53, 0x41, 0x31, 0x44, 0x47, 0x39, 0x44,
             0x46, 0x50, 0x31, 0x34, 0x37, 0x30, 0x35])]

/-- `UDSServer.get_sid`: `raw_request[0]` (raises `IndexError` on an empty
frame). -/
def get_sid (raw_request : Frame) : Option Nat := raw_request.get? 0

/-- `UDSServer.get_did`: `(raw_request[1] << 8) + raw_request[2]` (raises
`IndexError` on a frame shorter than 3 bytes). -/
def get_did (raw_request : Frame) : Option Nat := do
  let b1 ← raw_request.get? 1
  let b2 ← raw_request.get? 2
  pure ((b1 <<< 8) + b2)

/-- `UDSServer._send_negative_response` of `src/uds/uds_server.py`:
sends `b'\x7F' + rej_sid.to_bytes(length=1, byteorder='big') + b'\x10'`.
Returns the frame put on the wire. -/
def send_negative_response (rej_sid : Nat) : Option Frame := do
  let b ← toBytes1 rej_sid
  pure (0x7F :: b ++ [0x10])

/-- `UDSServer._handle_read_data_by_id` of `src/uds/uds_server.py`, run
against store `s`. Returns the store after the call and the frames sent. -/
def handle_read_data_by_id (s : Store) (raw_request : Frame) :
    Option (Store × List Frame) := do
  let did ← get_did raw_request
  if storeContains s did then do
    let db ← toBytes2 did
    pure (s, [0x62 :: db ++ storeGet s did])
  else do
    let rej ← get_sid raw_request
    let neg ← send_negative_response rej
    pure (s, [neg])

/-- `UDSServer._handle_write_data_by_id` of `src/uds/uds_server.py`:
`self.data[did] = raw_request[3:]` then send `b'\x6E' + DID bytes`. -/
def handle_write_data_by_id (s : Store) (raw_request : Frame) :
    Option (Store × List Frame) := do
  let did ← get_did raw_request
  if storeContains s did then do
    let s2 := dictSet s did (raw_request.drop 3)
    let db ← toBytes2 did
    pure (s2, [0x6E :: db])
  else do
    let rej ← get_sid raw_request
    let neg ← send_negative_response rej
    pure (s, [neg])

/-- One dispatch step of `UDSServer.run` of `src/uds/uds_server.py` on an
already-received frame `raw_request` against store `s`:
`sid = ServiceID(UDSServer.get_sid(raw_request))` — only `ValueError` is
caught, so `IndexError` from an empty frame propagates (`none`); unknown
SIDs and SIDs absent from `self.service_handlers` (which registers exactly
`READ_DATA_BY_IDENTIFIER = 0x22` and `WRITE_DATA_BY_IDENTIFIER = 0x2E`)
get a negative response; otherwise the registered handler runs. -/
def dispatch (s : Store) (raw_request : Frame) : Option (Store × List Frame) := do
  let sidByte ← get_sid raw_request
  if isServiceID sidByte then
    if sidByte = 0x22 then
      handle_read_data_by_id s raw_request
    else if sidByte = 0x2E then
      handle_write_data_by_id s raw_request
    else do
      let neg ← send_negative_response sidByte
      pure (s, [neg])
  else do
    let neg ← send_negative_response sidByte
    pure (s, [neg])

/-- The values of the nested `UDSServer.ServiceID` enumeration of
`src/uds_server/__init__.py`, in source order. -/
def serviceIDValuesOld : List Nat :=
  [0x10, 0x11, 0x22, 0x2A, 0x2C, 0x2E, 0x2F, 0x31, 0x34, 0x36, 0x35, 0x37,
   0x27, 0x28]

/-- `UDSServer.ServiceID(b)` of the older snapshot. -/
def isServiceIDOld (b : Nat) : Bool := serviceIDValuesOld.contains b

/-- `UDSServer.send_negative_response` of `src/uds_server/__init__.py`. -/
def send_negative_response_old (rej_sid : Nat) : Option Frame := do
  let b ← toBytes1 rej_sid
  pure (0x7F :: b ++ [0x10])

/-- `UDSServer.get_did` of `src/uds_server/__init__.py`:
`(payload[1] << 8) + payload[2]`. -/
def get_did_old (payload : Frame) : Option Nat := do
  let b1 ← payload.get? 1
  let b2 ← payload.get? 2
  pure ((b1 <<< 8) + b2)

/-- `UDSServer._handle_read_data_by_id` of `src/uds_server/__init__.py`,
run against store `s` (the snapshot reads the class attribute
`dummy_data`; the store contents are a parameter here). Its negative
response uses `req[0]` directly. -/
def handle_read_data_by_id_old (s : Store) (req : Frame) :
    Option (Store × List Frame) := do
  let did ← get_did_old req
  if storeContains s did then do
    let db ← toBytes2 did
    pure (s, [0x62 :: db ++ storeGet s did])
  else do
    let rej ← req.get? 0
    let neg ← send_negative_response_old rej
    pure (s, [neg])

/-- `UDSServer._handle_write_data_by_id` of `src/uds_server/__init__.py`:
`self.dummy_data[did] = req[3:]` then send `b'\x6E' + DID bytes`. -/
def handle_write_data_by_id_old (s : Store) (req : Frame) :
    Option (Store × List Frame) := do
  let did ← get_did_old req
  if storeContains s did then do
    let s2 := dictSet s did (req.drop 3)
    let db ← toBytes2 did
    pure (s2, [0x6E :: db])
  else do
    let rej ← req.get? 0
    let neg ← send_negative_response_old rej
    pure (s, [neg])

/-- One dispatch step of `UDSServer.run` of `src/uds_server/__init__.py`:
`sid = UDSServer.ServiceID(req[0])` with only `ValueError` caught; the
handler table registers exactly `0x22` and `0x2E` (through lambdas). -/
def dispatch_old (s : Store) (req : Frame) : Option (Store × List Frame) := do
  let b ← req.get? 0
  if isServiceIDOld b then
    if b = 0x22 then
      handle_read_data_by_id_old s req
    else if b = 0x2E then
      handle_write_data_by_id_old s req
    else do
      let neg ← send_negative_response_old b
      pure (s, [neg])
  else do
    let neg ← send_negative_response_old b
    pure (s, [neg])

example : dispatch DUMMY_DATA [0x22, 0x00, 0x01] =
    some (DUMMY_DATA, [[0x62, 0x00, 0x01, 0x01]]) := by decide
example : dispatch DUMMY_DATA [] = none := by decide
example : dispatch DUMMY_DATA [0x22] = none := by decide
example : dispatch DUMMY_DATA [0x99, 0x00] =
    some (DUMMY_DATA, [[0x7F, 0x99, 0x10]]) := by decide
example : dispatch DUMMY_DATA [0x10, 0x00] =
    some (DUMMY_DATA, [[0x7F, 0x10, 0x10]]) := by decide
example : dispatch DUMMY_DATA [0x2E, 0x00, 0x01, 0x41, 0x42] =
    some ([(0x0001, [0x41, 0x42])] ++ DUMMY_DATA.drop 1,
          [[0x6E, 0x00, 0x01]]) := by decide

/-! ## Store lemmas -/

lemma storeLookup_map_repl (s : Store) (k : Nat) (v : List Nat)
    (h : (storeLookup s k).isSome) :
    storeLookup (s.map (replEntry k v)) k = some v := by
  induction s with
  | nil => simp [storeLookup] at h
  | cons e rest ih =>
    by_cases hek : e.1 = k
    · simp [storeLookup, replEntry, hek]
    · simp [storeLookup, replEntry, hek] at h ⊢
      exact ih h

lemma storeLookup_append_single (s : Store) (k : Nat) (v : List Nat)
    (h : storeLookup s k = none) :
    storeLookup (s ++ [(k, v)]) k = some v := by
  induction s with
  | nil => simp [storeLookup]
  | cons e rest ih =>
    by_cases hek : e.1 = k
    · simp [storeLookup, hek] at h
    · simp [storeLookup, hek] at h ⊢
      exact ih h

lemma not_contains_lookup_none (s : Store) (k : Nat)
    (h : ¬ storeContains s k = true) : storeLookup s k = none := by
  rcases hx : storeLookup s k with _ | w
  · rfl
  · exact absurd (by simp [storeContains, hx]) h

lemma storeLookup_dictSet_self (s : Store) (k : Nat) (v : List Nat) :
    storeLookup (dictSet s k v) k = some v := by
  unfold dictSet
  by_cases h : storeContains s k = true
  · simp only [h, if_true]
    exact storeLookup_map_repl s k v h
  · simp only [h, if_false]
    exact storeLookup_append_single s k v (not_contains_lookup_none s k h)

lemma storeLookup_map_repl_ne (s : Store) (k k' : Nat) (v : List Nat)
    (h : k' ≠ k) :
    storeLookup (s.map (replEntry k v)) k' = storeLookup s k' := by
  induction s with
  | nil => rfl
  | cons e rest ih =>
    by_cases hek : e.1 = k
    · have : k ≠ k' := fun hkk => h hkk.symm
      simp [storeLookup, replEntry, hek, this, ih]
    · by_cases hek' : e.1 = k'
      · simp [storeLookup, replEntry, hek, hek', h]
      · simp [storeLookup, replEntry, hek, hek', h, ih]

lemma storeLookup_append_single_ne (s : Store) (k k' : Nat) (v : List Nat)
    (h : k' ≠ k) :
    storeLookup (s ++ [(k, v)]) k' = storeLookup s k' := by
  induction s with
  | nil =>
    have : k ≠ k' := fun hkk => h hkk.symm
    simp [storeLookup, this]
  | cons e rest ih =>
    by_cases hek : e.1 = k'
    · simp [storeLookup, hek]
    · simp [storeLookup, hek, ih]

lemma storeLookup_dictSet_ne (s : Store) (k k' : Nat) (v : List Nat)
    (h : k' ≠ k) :
    storeLookup (dictSet s k v) k' = storeLookup s k' := by
  unfold dictSet
  by_cases hc : storeContains s k = true
  · simp only [hc, if_true]
    exact storeLookup_map_repl_ne s k k' v h
  · simp only [hc, if_false]
    exact storeLookup_append_single_ne s k k' v h

lemma replEntry_fst (k : Nat) (v : List Nat) (e : Nat × List Nat) :
    (replEntry k v e).1 = e.1 := by
  by_cases h : e.1 = k <;> simp [replEntry, h]

lemma map_fst_map_repl (s : Store) (k : Nat) (v : List Nat) :
    (s.map (replEntry k v)).map Prod.fst = s.map Prod.fst := by
  induction s with
  | nil => rfl
  | cons e rest ih =>
    simp only [List.map_cons, replEntry_fst, ih]

lemma dictSet_keys_eq (s : Store) (k : Nat) (v : List Nat)
    (h : storeContains s k = true) :
    (dictSet s k v).map Prod.fst = s.map Prod.fst := by
  unfold dictSet
  simp only [h, if_true]
  exact map_fst_map_repl s k v

lemma map_repl_of_lookup_none (s : Store) (k : Nat) (v : List Nat)
    (h : storeLookup s k = none) :
    s.map (replEntry k v) = s := by
  induction s with
  | nil => rfl
  | cons e rest ih =>
    by_cases hek : e.1 = k
    · simp [storeLookup, hek] at h
    · simp [storeLookup, hek] at h
      simp [replEntry, hek, ih h]

lemma replEntry_idem (k : Nat) (v : List Nat) (e : Nat × List Nat) :
    replEntry k v (replEntry k v e) = replEntry k v e := by
  by_cases h : e.1 = k <;> simp [replEntry, h]

lemma dictSet_idem (s : Store) (k : Nat) (v : List Nat) :
    dictSet (dictSet s k v) k v = dictSet s k v := by
  have hc : storeContains (dictSet s k v) k = true := by
    simp [storeContains, storeLookup_dictSet_self]
  conv_lhs => rw [dictSet]
  simp only [hc, if_true]
  unfold dictSet
  by_cases h : storeContains s k = true
  · simp only [h, if_true, List.map_map]
    exact List.map_congr_left fun e _ => replEntry_idem k v e
  · have hn : storeLookup s k = none := not_contains_lookup_none s k h
    simp only [h, if_false, List.map_append, map_repl_of_lookup_none s k v hn]
    simp [replEntry]
    exact map_repl_of_lookup_none s k v hn

/-! ## Byte-encoding lemmas -/

lemma toBytes1_of_byte (b : Nat) (h : b < 256) : toBytes1 b = some [b] := by
  simp [toBytes1, h]

lemma toBytes2_of_bytes (hi lo : Nat) (hhi : hi < 256) (hlo : lo < 256) :
    toBytes2 ((hi <<< 8) + lo) = some [hi, lo] := by
  have hs : (hi <<< 8) + lo = hi * 256 + lo := by
    simp [Nat.shiftLeft_eq]
  rw [hs, toBytes2, if_pos (by omega)]
  have h1 : (hi * 256 + lo) / 256 = hi := by omega
  have h2 : (hi * 256 + lo) % 256 = lo := by omega
  rw [h1, h2]

/-! ## Claim theorems -/

/-- C2: for every DID present in the store, processing the
ReadDataByIdentifier request `[0x22, DID_hi, DID_lo]` (with any trailing
bytes) sends exactly `0x62 ++ DID(2 bytes, big-endian) ++ record` and
leaves the store untouched; at the store seeded at construction this
returns exactly the initial bytes. -/
theorem C2_read_returns_stored (s : Store) (hi lo : Nat) (rest : Frame)
    (hhi : hi < 256) (hlo : lo < 256)
    (hc : storeContains s ((hi <<< 8) + lo) = true) :
    dispatch s (0x22 :: hi :: lo :: rest) =
      some (s, [0x62 :: hi :: lo :: storeGet s ((hi <<< 8) + lo)]) := by
  simp [dispatch, get_sid, isServiceID, serviceIDValues,
        handle_read_data_by_id, get_did, hc,
        toBytes2_of_bytes hi lo hhi hlo]

/-- C2 witness: reading DID 0x0007 of the construction-time dummy store
returns its seeded bytes. -/
theorem C2_read_returns_stored_witness :
    dispatch DUMMY_DATA [0x22, 0x00, 0x07] =
      some (DUMMY_DATA,
            [[0x62, 0x00, 0x07, 0x07, 0x07, 0x07, 0x07, 0x07, 0x07, 0x07]]) :=
  C2_read_returns_stored DUMMY_DATA 0x00 0x07 [] (by decide) (by decide)
    (by decide)

/-- C1: for every DID present in the store and every byte sequence V, the
write request `[0x2E, DID_hi, DID_lo] ++ V` answers exactly
`[0x6E, DID_hi, DID_lo]` (no echo of the written data), and the following
read request `[0x22, DID_hi, DID_lo]` answers
`0x62 ++ DID(2 bytes, big-endian) ++ V`. -/
theorem C1_write_then_read (s : Store) (hi lo : Nat) (V : List Nat)
    (hhi : hi < 256) (hlo : lo < 256)
    (hc : storeContains s ((hi <<< 8) + lo) = true) :
    ∃ s1,
      dispatch s (0x2E :: hi :: lo :: V) = some (s1, [[0x6E, hi, lo]]) ∧
      dispatch s1 [0x22, hi, lo] = some (s1, [0x62 :: hi :: lo :: V]) := by
  refine ⟨dictSet s ((hi <<< 8) + lo) V, ?_, ?_⟩
  · have hdrop : (0x2E :: hi :: lo :: V).drop 3 = V := rfl
    simp [dispatch, get_sid, isServiceID, serviceIDValues,
          handle_write_data_by_id, get_did, hc, hdrop,
          toBytes2_of_bytes hi lo hhi hlo]
  · have hc1 : storeContains (dictSet s ((hi <<< 8) + lo) V)
        ((hi <<< 8) + lo) = true := by
      simp [storeContains, storeLookup_dictSet_self]
    have hg : storeGet (dictSet s ((hi <<< 8) + lo) V) ((hi <<< 8) + lo) = V := by
      simp [storeGet, storeLookup_dictSet_self]
    simp [dispatch, get_sid, isServiceID, serviceIDValues,
          handle_read_data_by_id, get_did, hc1, hg,
          toBytes2_of_bytes hi lo hhi hlo]

/-- C1 witness: writing `[0x41, 0x42]` to the VIN DID 0xF190 of the dummy
store answers `[0x6E, 0xF1, 0x90]`, and the following read returns exactly
the written bytes. -/
theorem C1_write_then_read_witness :
    ∃ s1,
      dispatch DUMMY_DATA [0x2E, 0xF1, 0x90, 0x41, 0x42] =
        some (s1, [[0x6E, 0xF1, 0x90]]) ∧
      dispatch s1 [0x22, 0xF1, 0x90] =
        some (s1, [[0x62, 0xF1, 0x90, 0x41, 0x42]]) :=
  C1_write_then_read DUMMY_DATA 0xF1 0x90 [0x41, 0x42] (by decide) (by decide)
    (by decide)

/-- C3: the claim says one dispatch step never raises, for frames of any
length including the empty frame and short DID-addressed frames; but the
code catches only `ValueError` around `ServiceID(raw_request[0])` and never
checks the size (its own `TODO: Check the size first...`), so the empty
frame and the 1- or 2-byte DID-addressed frames raise `IndexError`,
modelled here as `none` instead of a sent Negative Response. -/
theorem C3_short_frames_crash :
    dispatch DUMMY_DATA [] = none ∧
    dispatch DUMMY_DATA [0x22] = none ∧
    dispatch DUMMY_DATA [0x22, 0xF1] = none ∧
    dispatch DUMMY_DATA [0x2E, 0xF1] = none :=
  ⟨rfl, rfl, rfl, rfl⟩

/-- C8: repeating the identical write request `[0x2E, DID_hi, DID_lo] ++ V`
twice yields the same final store as processing it once (record = V) and
two identical positive responses `[0x6E, DID_hi, DID_lo]`. -/
theorem C8_write_idempotent (s : Store) (hi lo : Nat) (V : List Nat)
    (hhi : hi < 256) (hlo : lo < 256)
    (hc : storeContains s ((hi <<< 8) + lo) = true) :
    ∃ s1,
      dispatch s (0x2E :: hi :: lo :: V) = some (s1, [[0x6E, hi, lo]]) ∧
      dispatch s1 (0x2E :: hi :: lo :: V) = some (s1, [[0x6E, hi, lo]]) ∧
      storeGet s1 ((hi <<< 8) + lo) = V := by
  refine ⟨dictSet s ((hi <<< 8) + lo) V, ?_, ?_, ?_⟩
  · have hdrop : (0x2E :: hi :: lo :: V).drop 3 = V := rfl
    simp [dispatch, get_sid, isServiceID, serviceIDValues,
          handle_write_data_by_id, get_did, hc, hdrop,
          toBytes2_of_bytes hi lo hhi hlo]
  · have hdrop : (0x2E :: hi :: lo :: V).drop 3 = V := rfl
    have hc1 : storeContains (dictSet s ((hi <<< 8) + lo) V)
        ((hi <<< 8) + lo) = true := by
      simp [storeContains, storeLookup_dictSet_self]
    simp [dispatch, get_sid, isServiceID, serviceIDValues,
          handle_write_data_by_id, get_did, hc1, hdrop,
          toBytes2_of_bytes hi lo hhi hlo,
          dictSet_idem s ((hi <<< 8) + lo) V]
  · simp [storeGet, storeLookup_dictSet_self]

/-- C8 witness: writing `[0x55]` to DID 0x0001 of the dummy store twice
gives the same final store, the record `[0x55]`, and two identical
positive responses. -/
theorem C8_write_idempotent_witness :
    ∃ s1,
      dispatch DUMMY_DATA [0x2E, 0x00, 0x01, 0x55] =
        some (s1, [[0x6E, 0x00, 0x01]]) ∧
      dispatch s1 [0x2E, 0x00, 0x01, 0x55] =
        some (s1, [[0x6E, 0x00, 0x01]]) ∧
      storeGet s1 0x0001 = [0x55] :=
  C8_write_idempotent DUMMY_DATA 0x00 0x01 [0x55] (by decide) (by decide)
    (by decide)

/-- C10: a 3-byte write request `[0x2E, DID_hi, DID_lo]` with no payload at
all is accepted when the DID is present: the record is replaced by the
empty byte sequence and the positive response `[0x6E, DID_hi, DID_lo]` is
sent. -/
theorem C10_empty_write_accepted (s : Store) (hi lo : Nat)
    (hhi : hi < 256) (hlo : lo < 256)
    (hc : storeContains s ((hi <<< 8) + lo) = true) :
    dispatch s [0x2E, hi, lo] =
      some (dictSet s ((hi <<< 8) + lo) [], [[0x6E, hi, lo]]) ∧
    storeGet (dictSet s ((hi <<< 8) + lo) []) ((hi <<< 8) + lo) = [] := by
  constructor
  · have hdrop : ([0x2E, hi, lo] : Frame).drop 3 = [] := rfl
    simp [dispatch, get_sid, isServiceID, serviceIDValues,
          handle_write_data_by_id, get_did, hc, hdrop,
          toBytes2_of_bytes hi lo hhi hlo]
  · simp [storeGet, storeLookup_dictSet_self]

/-- C10 witness: the payload-less write `[0x2E, 0x00, 0x07]` empties the
record of DID 0x0007 of the dummy store and is answered positively. -/
theorem C10_empty_write_accepted_witness :
    dispatch DUMMY_DATA [0x2E, 0x00, 0x07] =
      some (dictSet DUMMY_DATA 0x0007 [], [[0x6E, 0x00, 0x07]]) ∧
    storeGet (dictSet DUMMY_DATA 0x0007 []) 0x0007 = [] :=
  C10_empty_write_accepted DUMMY_DATA 0x00 0x07 (by decide) (by decide)
    (by decide)

/-! ## Dispatch case analysis -/

lemma dispatch_cons (s : Store) (b : Nat) (rest : Frame) :
    dispatch s (b :: rest) =
      if isServiceID b then
        if b = 0x22 then
          handle_read_data_by_id s (b :: rest)
        else if b = 0x2E then
          handle_write_data_by_id s (b :: rest)
        else
          (send_negative_response b).bind fun neg => some (s, [neg])
      else
        (send_negative_response b).bind fun neg => some (s, [neg]) := rfl

lemma neg_path_store_eq (s : Store) (b : Nat) (res : Store × List Frame)
    (h : ((send_negative_response b).bind fun neg => some (s, [neg])) =
      some res) :
    res.1 = s := by
  rcases hn : send_negative_response b with _ | neg
  · rw [hn] at h
    simp at h
  · rw [hn] at h
    simp only [Option.some_bind, Option.some.injEq] at h
    rw [← h]

lemma handle_read_store_eq (s : Store) (req : Frame)
    (res : Store × List Frame) (h : handle_read_data_by_id s req = some res) :
    res.1 = s := by
  unfold handle_read_data_by_id at h
  rcases hd : get_did req with _ | did
  · rw [hd] at h
    simp at h
  · rw [hd] at h
    simp only [Option.bind_eq_bind, Option.some_bind] at h
    split at h
    · rcases htb : toBytes2 did with _ | db
      · rw [htb] at h
        simp at h
      · rw [htb] at h
        simp only [Option.some_bind, Option.pure_def, Option.some.injEq] at h
        rw [← h]
    · rcases hs0 : get_sid req with _ | rej
      · rw [hs0] at h
        simp at h
      · rw [hs0] at h
        simp only [Option.some_bind] at h
        rcases hn : send_negative_response rej with _ | neg
        · rw [hn] at h
          simp at h
        · rw [hn] at h
          simp only [Option.some_bind, Option.pure_def, Option.some.injEq] at h
          rw [← h]

lemma handle_write_store_cases (s : Store) (req : Frame)
    (res : Store × List Frame) (h : handle_write_data_by_id s req = some res) :
    res.1 = s ∨ ∃ did, storeContains s did = true ∧
      get_did req = some did ∧ res.1 = dictSet s did (req.drop 3) := by
  unfold handle_write_data_by_id at h
  rcases hd : get_did req with _ | did
  · rw [hd] at h
    simp at h
  · rw [hd] at h
    simp only [Option.bind_eq_bind, Option.some_bind] at h
    split at h
    · rename_i hc
      rcases htb : toBytes2 did with _ | db
      · rw [htb] at h
        simp at h
      · rw [htb] at h
        simp only [Option.some_bind, Option.pure_def, Option.some.injEq] at h
        exact Or.inr ⟨did, hc, rfl, by rw [← h]⟩
    · rcases hs0 : get_sid req with _ | rej
      · rw [hs0] at h
        simp at h
      · rw [hs0] at h
        simp only [Option.some_bind] at h
        rcases hn : send_negative_response rej with _ | neg
        · rw [hn] at h
          simp at h
        · rw [hn] at h
          simp only [Option.some_bind, Option.pure_def, Option.some.injEq] at h
          exact Or.inl (by rw [← h])

lemma dispatch_store_cases (s : Store) (req : Frame)
    (res : Store × List Frame) (h : dispatch s req = some res) :
    res.1 = s ∨ ∃ did, storeContains s did = true ∧
      res.1 = dictSet s did (req.drop 3) := by
  cases req with
  | nil => simp [dispatch, get_sid] at h
  | cons b rest =>
    rw [dispatch_cons] at h
    split at h
    · split at h
      · exact Or.inl (handle_read_store_eq s (b :: rest) res h)
      · split at h
        · rcases handle_write_store_cases s (b :: rest) res h with
            h1 | ⟨did, hc, _, h1⟩
          · exact Or.inl h1
          · exact Or.inr ⟨did, hc, h1⟩
        · exact Or.inl (neg_path_store_eq s b res h)
    · exact Or.inl (neg_path_store_eq s b res h)

/-- C4: for a non-empty request whose first byte is either not a member of
the `ServiceID` enumeration, or decodes to a member with no entry in
`service_handlers` (only 0x22 and 0x2E are registered), the step sends
exactly `[0x7F, <that byte>, NRC]` (the raw byte and the decoded value
coincide numerically) and the store is unmodified. -/
theorem C4_unknown_or_unregistered (s : Store) (b : Nat) (rest : Frame)
    (hb : b < 256)
    (h : isServiceID b = false ∨
         (isServiceID b = true ∧ b ≠ 0x22 ∧ b ≠ 0x2E)) :
    dispatch s (b :: rest) = some (s, [[0x7F, b, 0x10]]) := by
  rcases h with h | ⟨hsvc, h1, h2⟩
  · simp [dispatch, get_sid, h, send_negative_response, toBytes1_of_byte b hb]
  · simp [dispatch, get_sid, hsvc, h1, h2, send_negative_response,
          toBytes1_of_byte b hb]

/-- C4 witness: the undefined SID 0x99 and the decodable-but-unregistered
SID 0x10 both get `[0x7F, sid, 0x10]` with the dummy store unchanged. -/
theorem C4_unknown_or_unregistered_witness :
    dispatch DUMMY_DATA [0x99] = some (DUMMY_DATA, [[0x7F, 0x99, 0x10]]) ∧
    dispatch DUMMY_DATA [0x10, 0x01] =
      some (DUMMY_DATA, [[0x7F, 0x10, 0x10]]) :=
  ⟨C4_unknown_or_unregistered DUMMY_DATA 0x99 [] (by decide)
     (Or.inl (by decide)),
   C4_unknown_or_unregistered DUMMY_DATA 0x10 [0x01] (by decide)
     (Or.inr ⟨by decide, by decide, by decide⟩)⟩

/-- C5: whenever a dispatch step completes (returns rather than raising),
the key list of the store — hence its key set — is unchanged: writes to
absent DIDs are rejected, so only values ever mutate. -/
theorem C5_key_set_fixed (s : Store) (req : Frame) (res : Store × List Frame)
    (h : dispatch s req = some res) :
    res.1.map Prod.fst = s.map Prod.fst := by
  rcases dispatch_store_cases s req res h with h1 | ⟨did, hc, h1⟩
  · rw [h1]
  · rw [h1]
    exact dictSet_keys_eq s did (req.drop 3) hc

/-- C5 witness: a successful write to DID 0x0030 of the dummy store leaves
the key list unchanged. -/
theorem C5_key_set_fixed_witness :
    (dictSet DUMMY_DATA 0x0030 [0xAB]).map Prod.fst =
      DUMMY_DATA.map Prod.fst :=
  C5_key_set_fixed DUMMY_DATA [0x2E, 0x00, 0x30, 0xAB]
    (dictSet DUMMY_DATA 0x0030 [0xAB], [[0x6E, 0x00, 0x30]]) (by decide)

/-- C6: the ReadDataByIdentifier handler never mutates the store, and any
completed WriteDataByIdentifier call leaves every DID other than the one
addressed by the request with its lookup result (presence and record)
unchanged. -/
theorem C6_read_pure_write_local :
    (∀ s req res, handle_read_data_by_id s req = some res → res.1 = s) ∧
    (∀ s req res d, handle_write_data_by_id s req = some res →
      get_did req ≠ some d → storeLookup res.1 d = storeLookup s d) := by
  constructor
  · exact fun s req res h => handle_read_store_eq s req res h
  · intro s req res d h hd
    rcases handle_write_store_cases s req res h with h1 | ⟨did, _, hdid, h1⟩
    · rw [h1]
    · rw [h1]
      have hne : d ≠ did := fun he => hd (he ▸ hdid)
      exact storeLookup_dictSet_ne s did d (req.drop 3) hne

/-- C6 witness: a concrete read leaves the dummy store untouched, and a
concrete write to DID 0x0001 leaves DID 0x0007 untouched. -/
theorem C6_read_pure_write_local_witness :
    ((DUMMY_DATA, [[0x62, 0x00, 0x01, 0x01]]) : Store × List Frame).1 =
      DUMMY_DATA ∧
    storeLookup
      ((dictSet DUMMY_DATA 0x0001 [0x42],
        [[0x6E, 0x00, 0x01]]) : Store × List Frame).1 0x0007 =
      storeLookup DUMMY_DATA 0x0007 :=
  ⟨C6_read_pure_write_local.1 DUMMY_DATA [0x22, 0x00, 0x01] _ (by decide),
   C6_read_pure_write_local.2 DUMMY_DATA [0x2E, 0x00, 0x01, 0x42] _ 0x0007
     (by decide) (by decide)⟩

/-- C7: on each of the four failure paths — unknown SID, decodable but
unregistered SID, DID not found on read, DID not found on write — the
emitted frame is exactly the three bytes `[0x7F, rejected_sid, 0x10]`,
with the same fixed placeholder NRC byte 0x10 at every site. -/
theorem C7_negative_response_shape :
    (∀ s b rest, b < 256 → isServiceID b = false →
      dispatch s (b :: rest) = some (s, [[0x7F, b, 0x10]])) ∧
    (∀ s b rest, b < 256 → isServiceID b = true → b ≠ 0x22 → b ≠ 0x2E →
      dispatch s (b :: rest) = some (s, [[0x7F, b, 0x10]])) ∧
    (∀ s c d rest, storeContains s ((c <<< 8) + d) = false →
      dispatch s (0x22 :: c :: d :: rest) = some (s, [[0x7F, 0x22, 0x10]])) ∧
    (∀ s c d rest, storeContains s ((c <<< 8) + d) = false →
      dispatch s (0x2E :: c :: d :: rest) = some (s, [[0x7F, 0x2E, 0x10]])) := by
  refine ⟨?_, ?_, ?_, ?_⟩
  · intro s b rest hb h
    simp [dispatch, get_sid, h, send_negative_response, toBytes1_of_byte b hb]
  · intro s b rest hb hsvc h1 h2
    simp [dispatch, get_sid, hsvc, h1, h2, send_negative_response,
          toBytes1_of_byte b hb]
  · intro s c d rest hc
    simp [dispatch, get_sid, isServiceID, serviceIDValues,
          handle_read_data_by_id, get_did, hc, send_negative_response,
          toBytes1]
  · intro s c d rest hc
    simp [dispatch, get_sid, isServiceID, serviceIDValues,
          handle_write_data_by_id, get_did, hc, send_negative_response,
          toBytes1]

/-- C7 witness: all four failure paths at concrete inputs produce the
three-byte negative response with NRC 0x10. -/
theorem C7_negative_response_shape_witness :
    dispatch DUMMY_DATA [0x98] = some (DUMMY_DATA, [[0x7F, 0x98, 0x10]]) ∧
    dispatch DUMMY_DATA [0x11] = some (DUMMY_DATA, [[0x7F, 0x11, 0x10]]) ∧
    dispatch DUMMY_DATA [0x22, 0x12, 0x34] =
      some (DUMMY_DATA, [[0x7F, 0x22, 0x10]]) ∧
    dispatch DUMMY_DATA [0x2E, 0x12, 0x34] =
      some (DUMMY_DATA, [[0x7F, 0x2E, 0x10]]) :=
  ⟨C7_negative_response_shape.1 DUMMY_DATA 0x98 [] (by decide) (by decide),
   C7_negative_response_shape.2.1 DUMMY_DATA 0x11 [] (by decide) (by decide)
     (by decide) (by decide),
   C7_negative_response_shape.2.2.1 DUMMY_DATA 0x12 0x34 [] (by decide),
   C7_negative_response_shape.2.2.2 DUMMY_DATA 0x12 0x34 [] (by decide)⟩

/-- C9: for every store contents and every received frame, one dispatch
step of the older snapshot (`src/uds_server/__init__.py`) and one of the
current module (`src/uds/uds_server.py`) send identical wire bytes and
produce identical resulting stores (or both raise): the two snapshots are
behaviorally equivalent modulo initial data and logging. -/
theorem C9_snapshots_equivalent (s : Store) (req : Frame) :
    dispatch_old s req = dispatch s req := rfl
